import Mathlib

/-!
Shallow embedding of the Attendance Scan Engine of this repository:
the scan/cooldown logic of `UserDashboard.js` (`handleQRScan`, the
cooldown `useEffect`, `setCooldownTimer`) and the two `QRScanner`
component implementations (the demo click-to-scan scanner in
`QRScanner.js` and the `qr-scanner`-library scanner bundled with
`PanelApp.js`).

JavaScript values are embedded as follows: possibly-absent response
fields are `Option`, JS truthiness of a numeric field is `getD 0 ≠ 0`,
`String.prototype.includes` is re-implemented below, and the React
state updates of one event handler are modelled as a pure function on
an explicit state record.  Asynchrony is modelled by splitting
`handleQRScan` at its `await`: the part before the backend call
(`handleScanStart`), the part applied to a backend response
(`applyScanResponse`) and the `catch` branch (`applyScanError`), glued
together by event-step functions over which interleavings of decode
events, backend responses and cooldown ticks are quantified.  Two
delivery paths are modelled separately, because they differ in what
state the decode handler reads: `step` delivers decodes through the
demo scanner's `handleVideoClick`, which is re-created on every render
and therefore tests the current `isScanning`/`loading` and calls the
current `handleQRScan`; `qstep` delivers decodes through the
production `qr-scanner` callback, which is created once inside
`startScanning` and closes over the `disabled` prop and the
`handleQRScan` closure of that render, so its reads are the values
captured at scanner creation while its state-setter writes act on
current state.
-/

namespace ScanEngine

/-- `String.prototype.includes` on the underlying character lists:
`hasPrefixC p l` is true when `p` is an initial segment of `l`. -/
def hasPrefixC : List Char → List Char → Bool
  | [], _ => true
  | _ :: _, [] => false
  | p :: ps, c :: cs => p == c && hasPrefixC ps cs

/-- `hasSubC pat l` is true when `pat` occurs contiguously inside `l`. -/
def hasSubC (pat : List Char) : List Char → Bool
  | [] => hasPrefixC pat []
  | c :: cs => hasPrefixC pat (c :: cs) || hasSubC pat cs

/-- JS `s.includes(pat)`: `pat` occurs as a substring of `s`. -/
def strIncludes (s pat : String) : Bool :=
  hasSubC pat.data s.data

/-- The response shape of `qrScanAPI.processScan` as consumed by
`handleQRScan`: `{success, action?, employee_name?, time?, message,
cooldown_seconds?}` (optional fields are `Option`). -/
structure BackendResponse where
  success : Bool
  action : Option String := none
  employee_name : Option String := none
  time : Option String := none
  message : String
  cooldown_seconds : Option Nat := none
deriving Repr, DecidableEq

/-- The object stored by `setScanResult` in `UserDashboard.js`; fields
not set in a given branch are `none` (absent in the JS object). -/
structure ScanResult where
  success : Bool
  message : String
  action : Option String := none
  employee : Option String := none
  time : Option String := none
  cooldown_seconds : Option Nat := none
  isUnauthorized : Option Bool := none
  isCooldown : Option Bool := none
deriving Repr, DecidableEq

/-- The `UserDashboard` state relevant to scanning, plus `inFlight`
(the list of `processScan` calls issued and not yet settled) and the
scanner's `isScanning` flag that gates decode delivery. -/
structure SysState where
  scanResult : Option ScanResult
  loading : Bool
  cooldownTimer : Nat
  isCooldownActive : Bool
  inFlight : List String
  isScanning : Bool
deriving Repr, DecidableEq

/-- `setCooldownTimer(n)` from `handleQRScan`. -/
def setCooldownTimer (n : Nat) (s : SysState) : SysState :=
  { s with cooldownTimer := n }

/-- The cooldown `useEffect` re-running after `cooldownTimer` changed:
`setIsCooldownActive(true)` when the timer is positive, otherwise
`setIsCooldownActive(false)`. -/
def cooldownEffect (s : SysState) : SysState :=
  { s with isCooldownActive := decide (0 < s.cooldownTimer) }

/-- Arming the cooldown governor: `setCooldownTimer(n)` followed by the
effect run it triggers. -/
def armCooldown (n : Nat) (s : SysState) : SysState :=
  cooldownEffect (setCooldownTimer n s)

/-- One firing of the one-second `setInterval` callback (the interval
exists only while `cooldownTimer > 0`), together with the effect re-run
on the changed timer: `timer <= 1` clears the flag and returns `0`,
otherwise the timer is decremented and the effect re-asserts the
flag. -/
def cooldownTick (s : SysState) : SysState :=
  if s.cooldownTimer = 0 then s
  else if s.cooldownTimer ≤ 1 then
    { s with cooldownTimer := 0, isCooldownActive := false }
  else
    { s with cooldownTimer := s.cooldownTimer - 1, isCooldownActive := true }

/-- The `scanResult` produced by the local cooldown-rejection branch of
`handleQRScan` when the governor is active with `t` seconds left. -/
def cooldownRejectResult (t : Nat) : ScanResult :=
  { success := false,
    message := "Musisz poczekać " ++ toString t ++ " sekund przed kolejnym skanowaniem",
    isCooldown := some true }

/-- The `scanResult` produced by the `catch` branch of `handleQRScan`
on a transport/network fault. -/
def serverErrorResult : ScanResult :=
  { success := false, message := "Błąd połączenia z serwerem" }

/-- The part of `handleQRScan` before the `await`: if the cooldown is
active the decode is rejected locally and no call is issued; otherwise
`setLoading(true)`, `setScanResult(null)` and a `processScan` call is
issued (recorded in `inFlight`). -/
def handleScanStart (p : String) (s : SysState) : SysState :=
  if s.isCooldownActive then
    { s with scanResult := some (cooldownRejectResult s.cooldownTimer) }
  else
    { s with loading := true, scanResult := none, inFlight := p :: s.inFlight }

/-- The object passed to `setScanResult` in the `result.success` branch
of `handleQRScan`. -/
def acceptedResult (r : BackendResponse) : ScanResult :=
  { success := true, action := r.action, employee := r.employee_name,
    time := r.time, message := r.message,
    cooldown_seconds := r.cooldown_seconds }

/-- The object passed to `setScanResult` in the failure branch of
`handleQRScan`: the cooldown-vs-unauthorized split is the substring
test `result.message.includes('poczekać')`. -/
def failureResult (msg : String) : ScanResult :=
  { success := false, message := msg,
    isUnauthorized := some (!(strIncludes msg "poczekać")),
    isCooldown := some (strIncludes msg "poczekać") }

/-- The part of `handleQRScan` after the `await` resolved with response
`r`: the success/failure mapping to `scanResult`, the truthiness-guarded
`setCooldownTimer(result.cooldown_seconds)`, then `setLoading(false)`. -/
def applyScanResponse (r : BackendResponse) (s : SysState) : SysState :=
  let s1 :=
    if r.success then
      let sA := { s with scanResult := some (acceptedResult r) }
      if r.cooldown_seconds.getD 0 ≠ 0 then
        armCooldown (r.cooldown_seconds.getD 0) sA
      else sA
    else
      let sB := { s with scanResult := some (failureResult r.message) }
      if r.cooldown_seconds.getD 0 ≠ 0 then
        armCooldown (r.cooldown_seconds.getD 0) sB
      else sB
  { s1 with loading := false }

/-- The `catch` branch of `handleQRScan` (the `await` threw), followed
by `setLoading(false)`. -/
def applyScanError (s : SysState) : SysState :=
  { s with scanResult := some serverErrorResult, loading := false }

/-- The asynchronous event sources feeding the dashboard: a decode
event from the scanner, settlement of the pending `processScan` call
(with a response or with a thrown transport error), and the one-second
cooldown tick. -/
inductive ScanEvent where
  | decode (p : String)
  | respond (r : BackendResponse)
  | respondError
  | tick
deriving Repr, DecidableEq

/-- One event delivered to the dashboard through the demo
click-to-scan scanner of `QRScanner.js`: its `handleVideoClick` is
re-created on every render, so it tests the current
`isScanning && !loading` and calls the current `handleQRScan` before a
decode reaches the handler; a settlement event applies only when a
call is pending.  (The production `qr-scanner` delivery path instead
runs a callback with props captured at scanner creation; it is
modelled by `qstep` below.) -/
def step (s : SysState) : ScanEvent → SysState
  | .decode p => if s.isScanning && !s.loading then handleScanStart p s else s
  | .respond r =>
    match s.inFlight with
    | [] => s
    | _ :: _ => { applyScanResponse r s with inFlight := [] }
  | .respondError =>
    match s.inFlight with
    | [] => s
    | _ :: _ => { applyScanError s with inFlight := [] }
  | .tick => cooldownTick s

/-- The dashboard's initial state (`useState` initial values), with the
scanner flag `b`. -/
def initState (b : Bool) : SysState :=
  { scanResult := none, loading := false, cooldownTimer := 0,
    isCooldownActive := false, inFlight := [], isScanning := b }

/-- Camera facing direction (`'environment'` / `'user'`). -/
inductive Facing where
  | environment
  | user
deriving Repr, DecidableEq

/-- `facingMode === 'environment' ? 'user' : 'environment'`. -/
def flipFacing : Facing → Facing
  | .environment => .user
  | .user => .environment

/-- State of the demo scanner in `QRScanner.js`: the open stream is the
list of its track ids, `released` accumulates the ids of tracks that
`track.stop()` has been called on. -/
structure ScannerState where
  isScanning : Bool
  error : Option String
  facingMode : Facing
  stream : Option (List Nat)
  released : List Nat
deriving Repr, DecidableEq

/-- `stopScanning` of `QRScanner.js`: stop every track of the current
stream and null the ref (only if a stream is held), then
`setIsScanning(false)`. -/
def stopScanning (s : ScannerState) : ScannerState :=
  match s.stream with
  | some ts =>
    { s with released := s.released ++ ts, stream := none, isScanning := false }
  | none => { s with isScanning := false }

/-- State of the `qr-scanner`-library scanner bundled with
`PanelApp.js`: `scanner` holds the camera facing of the live `QrScanner`
instance, `destroyed` counts `destroy()` calls. -/
structure PScannerState where
  isScanning : Bool
  error : Option String
  facingMode : Facing
  scanner : Option Facing
  destroyed : Nat
deriving Repr, DecidableEq

/-- `stopScanning` of the `qr-scanner` implementation: destroy the
instance and null the ref (only if one is held), then
`setIsScanning(false)`. -/
def pstopScanning (s : PScannerState) : PScannerState :=
  match s.scanner with
  | some _ =>
    { s with destroyed := s.destroyed + 1, scanner := none, isScanning := false }
  | none => { s with isScanning := false }

/-- `startScanning` of the `qr-scanner` implementation: clear the
error, set `isScanning`, destroy any previous instance, create a new
instance preferring the current facing; `ok` is whether the awaited
`qrScanner.start()` succeeded (the `catch` records the error and clears
`isScanning`). -/
def pstartScanning (ok : Bool) (s : PScannerState) : PScannerState :=
  let s0 := { s with error := none, isScanning := true }
  let s1 :=
    match s0.scanner with
    | some _ => { s0 with destroyed := s0.destroyed + 1, scanner := none }
    | none => s0
  let s2 := { s1 with scanner := some s1.facingMode }
  if ok then s2
  else { s2 with
    error := some "Nie można uzyskać dostępu do kamery. Sprawdź uprawnienia.",
    isScanning := false }

/-- `qrScannerRef.current.setCamera(nf)` guarded by the ref being
non-null; `ok` is whether the awaited call succeeded. -/
def psetCamera (ok : Bool) (nf : Facing) (s : PScannerState) : PScannerState :=
  match s.scanner with
  | some _ =>
    if ok then { s with scanner := some nf }
    else { s with error := some "Nie można przełączyć kamery" }
  | none => s

/-- `toggleCamera` of the `qr-scanner` implementation, followed by the
`useEffect` on `[facingMode]` that restarts scanning when
`isScanning` holds. -/
def ptoggleCamera (setOk startOk : Bool) (s : PScannerState) : PScannerState :=
  let nf := flipFacing s.facingMode
  let s1 := { s with facingMode := nf }
  let s2 := psetCamera setOk nf s1
  if s2.isScanning then pstartScanning startOk s2 else s2

/-- A dashboard state with the cooldown governor active at 3 seconds. -/
def sCooldown : SysState :=
  { scanResult := none, loading := false, cooldownTimer := 3,
    isCooldownActive := true, inFlight := [], isScanning := true }

/-- A dashboard state with one submission in flight. -/
def sFlight : SysState :=
  { scanResult := none, loading := true, cooldownTimer := 0,
    isCooldownActive := false, inFlight := ["QR-EMP-001"], isScanning := true }

/-- A `qr-scanner` camera session capturing on the back camera. -/
def pCapturing : PScannerState :=
  { isScanning := true, error := none, facingMode := .environment,
    scanner := some .environment, destroyed := 0 }

/-- A `qr-scanner` camera session that is idle. -/
def pIdle : PScannerState :=
  { isScanning := false, error := none, facingMode := .environment,
    scanner := none, destroyed := 1 }

/-- A successful backend response arming a 5-second cooldown. -/
def rAccept : BackendResponse :=
  { success := true, action := some "check_in",
    employee_name := some "Jan Kowalski", time := some "08:00",
    message := "Rozpoczęto pracę", cooldown_seconds := some 5 }

/-- A failing backend response whose message indicates a wait/cooldown
condition. -/
def rCooldownFail : BackendResponse :=
  { success := false,
    message := "Musisz poczekać 3 sekund przed kolejnym skanowaniem",
    cooldown_seconds := some 3 }

/-- A failing backend response for an authorization problem. -/
def rUnauthorizedFail : BackendResponse :=
  { success := false, message := "Brak dostępu" }

/-- The values captured by the live `qr-scanner` decode callback at the
moment `startScanning` created it: the callback tests the `disabled`
prop and invokes the `onScan` (= `handleQRScan`) closure of that
render, so the `disabled`, `isCooldownActive` and `cooldownTimer`
values it reads are the ones current at scanner creation, not at
decode time. -/
structure Captured where
  disabled : Bool
  isCooldownActive : Bool
  cooldownTimer : Nat
deriving Repr, DecidableEq

/-- Dashboard state paired with the snapshot held by the live decode
callback of the production `qr-scanner` implementation. -/
structure QSysState where
  dash : SysState
  cap : Captured
deriving Repr, DecidableEq

/-- `startScanning` of the `qr-scanner` implementation creating the
decode callback: scanning starts and the new callback captures the
current `disabled` prop (`loading || isCooldownActive` in
`UserDashboard`) together with the current `handleQRScan` closure,
i.e. its reads of `isCooldownActive` and `cooldownTimer`.  The capture
is refreshed only when `startScanning` runs again. -/
def createScanner (s : QSysState) : QSysState :=
  { dash := { s.dash with isScanning := true },
    cap := { disabled := s.dash.loading || s.dash.isCooldownActive,
             isCooldownActive := s.dash.isCooldownActive,
             cooldownTimer := s.dash.cooldownTimer } }

/-- The captured `handleQRScan` closure run by the decode callback: its
cooldown test and remaining-seconds read use the captured values (the
closure has no `loading` check at all), while its writes —
`setScanResult`, `setLoading`, issuing `processScan` — act on current
state. -/
def staleHandleScanStart (p : String) (s : QSysState) : QSysState :=
  if s.cap.isCooldownActive then
    let d := { s.dash with
               scanResult := some (cooldownRejectResult s.cap.cooldownTimer) }
    { s with dash := d }
  else
    let d := { s.dash with
               loading := true, scanResult := none,
               inFlight := p :: s.dash.inFlight }
    { s with dash := d }

/-- Events of the production delivery path: scanner creation (capturing
props), decode, settlement of one pending call, and the cooldown
tick. -/
inductive QScanEvent where
  | create
  | decode (p : String)
  | respond (r : BackendResponse)
  | respondError
  | tick
deriving Repr, DecidableEq

/-- One event on the production path.  A decode is delivered by the
live callback, whose `!disabled` test uses the captured value; each
settlement resolves one pending call with the continuation of
`handleQRScan` (which reads only the response, so it is not affected by
the capture). -/
def qstep (s : QSysState) : QScanEvent → QSysState
  | .create => createScanner s
  | .decode p =>
    if s.dash.isScanning && !s.cap.disabled then staleHandleScanStart p s else s
  | .respond r =>
    match s.dash.inFlight with
    | [] => s
    | _ :: rest =>
      let d := { applyScanResponse r s.dash with inFlight := rest }
      { s with dash := d }
  | .respondError =>
    match s.dash.inFlight with
    | [] => s
    | _ :: rest =>
      let d := { applyScanError s.dash with inFlight := rest }
      { s with dash := d }
  | .tick => { s with dash := cooldownTick s.dash }

/-- Initial production-path state: the dashboard's `useState` initial
values and no scanner yet (the capture fields are inert until `create`
sets them, since the decode gate requires `isScanning`). -/
def qinit : QSysState :=
  { dash := initState false,
    cap := { disabled := false, isCooldownActive := false, cooldownTimer := 0 } }

/-- Trace: create the scanner, then two decode events in immediate
succession — the second arrives while the call issued by the first is
still in flight. -/
def staleDoubleTrace : List QScanEvent :=
  [.create, .decode "QR-EMP-001", .decode "QR-EMP-002"]

/-- Trace: create the scanner, scan once (accepted response arming a
5-second cooldown), then decode again while that cooldown is
active. -/
def staleCooldownTrace : List QScanEvent :=
  [.create, .decode "QR-EMP-001", .respond rAccept, .decode "QR-EMP-002"]

theorem cooldownTick_iterate (n : Nat) :
    ∀ s : SysState, s.cooldownTimer = n → 0 < n →
      (cooldownTick^[n] s).cooldownTimer = 0 ∧
      (cooldownTick^[n] s).isCooldownActive = false := by
  induction n with
  | zero => intro s _ h0; exact absurd h0 (by omega)
  | succ k ih =>
    intro s h _
    rw [Function.iterate_succ_apply]
    by_cases hk : k = 0
    · subst hk
      have ht : cooldownTick s =
          { s with cooldownTimer := 0, isCooldownActive := false } := by
        simp [cooldownTick, h]
      rw [ht]
      exact ⟨rfl, rfl⟩
    · have ht : cooldownTick s =
          { s with cooldownTimer := k, isCooldownActive := true } := by
        have h1 : s.cooldownTimer ≠ 0 := by omega
        have h2 : ¬ s.cooldownTimer ≤ 1 := by omega
        simp [cooldownTick, h1, h2, h]
        exact hk
      rw [ht]
      exact ih _ rfl (Nat.pos_of_ne_zero hk)

/-- C4 counterexample: arming with `n = 0` and then with `m = 5` leaves
the remaining seconds equal to `0 + 5`, so "for no pair n, m does the
remaining duration become n + m" fails in the degenerate case `n = 0`
(where `m` and `n + m` coincide). -/
theorem arm_sum_counterexample :
    (armCooldown 5 (armCooldown 0 (initState true))).cooldownTimer = 0 + 5 := by
  decide

/-- C4 (amended): for durations `n > 0` (the code only ever arms the
governor with a truthy, hence non-zero, `cooldown_seconds`), arming
with `n` and then with `m` leaves remaining seconds equal to `m` — the
latest duration replaces the previous one and is never the sum
`n + m`. -/
theorem arm_replaces_duration (s : SysState) (n m : Nat) (hn : 0 < n) :
    (armCooldown m (armCooldown n s)).cooldownTimer = m ∧
    (armCooldown m (armCooldown n s)).cooldownTimer ≠ n + m := by
  refine ⟨rfl, ?_⟩
  simp only [armCooldown, cooldownEffect, setCooldownTimer]
  omega

/-- Witness for C4's amended theorem at `n = 3`, `m = 5`. -/
theorem arm_replaces_duration_witness :
    (armCooldown 5 (armCooldown 3 (initState true))).cooldownTimer = 5 ∧
    (armCooldown 5 (armCooldown 3 (initState true))).cooldownTimer ≠ 3 + 5 :=
  arm_replaces_duration (initState true) 3 5 (by decide)

/-- C7: while the governor is active, each one-second tick decrements
the counter; after exactly `cooldownTimer` ticks (and no other
stimulus) the counter is exactly 0 and the active flag is cleared, and
the final tick from 1 performs both in one step. -/
theorem cooldown_expiry :
    (∀ s : SysState, s.cooldownTimer = 1 →
      cooldownTick s = { s with cooldownTimer := 0, isCooldownActive := false }) ∧
    (∀ s : SysState, 0 < s.cooldownTimer →
      (cooldownTick^[s.cooldownTimer] s).cooldownTimer = 0 ∧
      (cooldownTick^[s.cooldownTimer] s).isCooldownActive = false) := by
  constructor
  · intro s h
    simp [cooldownTick, h]
  · intro s h
    exact cooldownTick_iterate s.cooldownTimer s rfl h

/-- Witness for C7 at a state with 3 seconds remaining. -/
theorem cooldown_expiry_witness :
    (cooldownTick^[sCooldown.cooldownTimer] sCooldown).cooldownTimer = 0 ∧
    (cooldownTick^[sCooldown.cooldownTimer] sCooldown).isCooldownActive = false :=
  cooldown_expiry.2 sCooldown (by decide)

/-- C8: `stopScanning` is idempotent in both scanner implementations —
a second call changes nothing — and after it the stream/instance is
released and `isScanning` is false, so it is safe on a non-running
scanner. -/
theorem stop_idempotent :
    ∀ (s : ScannerState) (t : PScannerState),
      stopScanning (stopScanning s) = stopScanning s ∧
      (stopScanning s).isScanning = false ∧ (stopScanning s).stream = none ∧
      pstopScanning (pstopScanning t) = pstopScanning t ∧
      (pstopScanning t).isScanning = false ∧ (pstopScanning t).scanner = none := by
  intro s t
  obtain ⟨a, b, c, d, e⟩ := s
  obtain ⟨a', b', c', d', e'⟩ := t
  cases d <;> cases d' <;> simp [stopScanning, pstopScanning]

/-- C1 (code bug): on the production `qr-scanner` path the decode
callback and the `handleQRScan` closure it holds were captured at
scanner creation; after an accepted scan arms a 5-second cooldown, the
next decode still passes the captured `!disabled` test, sees the
captured inactive cooldown, issues a backend submission while
`isCooldownActive` is true and surfaces no local cooldown rejection —
against the claimed property that no submission is sent during an
active cooldown and a `Rejected{Cooldown}` outcome is surfaced
instead. -/
theorem stale_cooldown_submission :
    (staleCooldownTrace.foldl qstep qinit).dash.isCooldownActive = true ∧
    (staleCooldownTrace.foldl qstep qinit).dash.cooldownTimer = 5 ∧
    (staleCooldownTrace.foldl qstep qinit).dash.inFlight = ["QR-EMP-002"] ∧
    (staleCooldownTrace.foldl qstep qinit).dash.loading = true ∧
    (staleCooldownTrace.foldl qstep qinit).dash.scanResult = none :=
  ⟨rfl, rfl, rfl, rfl, rfl⟩

/-- C3: a success response maps to the accepted outcome carrying the
action, employee name, time and message; a failure response maps to the
failure outcome, which is the cooldown rejection exactly when the
message contains "poczekać" and the unauthorized rejection otherwise —
the two failure kinds are mutually exclusive. -/
theorem response_outcome_mapping :
    ∀ (s : SysState) (r : BackendResponse),
      (r.success = true →
        (applyScanResponse r s).scanResult = some (acceptedResult r) ∧
        (acceptedResult r).action = r.action ∧
        (acceptedResult r).employee = r.employee_name ∧
        (acceptedResult r).time = r.time ∧
        (acceptedResult r).message = r.message) ∧
      (r.success = false →
        (applyScanResponse r s).scanResult = some (failureResult r.message)) ∧
      (∀ msg : String, strIncludes msg "poczekać" = true →
        (failureResult msg).isCooldown = some true ∧
        (failureResult msg).isUnauthorized = some false) ∧
      (∀ msg : String, strIncludes msg "poczekać" = false →
        (failureResult msg).isCooldown = some false ∧
        (failureResult msg).isUnauthorized = some true) ∧
      (∀ msg : String,
        (failureResult msg).isCooldown = some true ↔
        (failureResult msg).isUnauthorized = some false) := by
  intro s r
  refine ⟨?_, ?_, ?_, ?_, ?_⟩
  · intro h
    refine ⟨?_, rfl, rfl, rfl, rfl⟩
    simp only [applyScanResponse, h, if_true]
    split <;> simp [armCooldown, setCooldownTimer, cooldownEffect]
  · intro h
    simp [applyScanResponse, h]
    split <;> simp [armCooldown, setCooldownTimer, cooldownEffect]
  · intro msg h
    simp [failureResult, h]
  · intro msg h
    simp [failureResult, h]
  · intro msg
    cases h : strIncludes msg "poczekać" <;> simp [failureResult, h]

/-- Witness for C3 on concrete accepted, cooldown-failure and
unauthorized-failure responses. -/
theorem response_outcome_mapping_witness :
    (applyScanResponse rAccept (initState true)).scanResult =
      some (acceptedResult rAccept) ∧
    (applyScanResponse rUnauthorizedFail (initState true)).scanResult =
      some (failureResult rUnauthorizedFail.message) ∧
    ((failureResult rCooldownFail.message).isCooldown = some true ∧
     (failureResult rCooldownFail.message).isUnauthorized = some false) ∧
    ((failureResult rUnauthorizedFail.message).isCooldown = some false ∧
     (failureResult rUnauthorizedFail.message).isUnauthorized = some true) :=
  ⟨((response_outcome_mapping (initState true) rAccept).1 rfl).1,
   (response_outcome_mapping (initState true) rUnauthorizedFail).2.1 rfl,
   (response_outcome_mapping (initState true) rCooldownFail).2.2.1
     rCooldownFail.message (by decide),
   (response_outcome_mapping (initState true) rUnauthorizedFail).2.2.2.1
     rUnauthorizedFail.message (by decide)⟩

/-- C10: a decode event rejected locally because the cooldown is active
changes only the displayed scan outcome — the cooldown counter, the
active flag and the loading flag are untouched. -/
theorem cooldown_reject_frame :
    ∀ (s : SysState) (p : String),
      s.isCooldownActive = true → s.isScanning = true → s.loading = false →
      step s (.decode p) =
        { s with scanResult := some (cooldownRejectResult s.cooldownTimer) } ∧
      (step s (.decode p)).cooldownTimer = s.cooldownTimer ∧
      (step s (.decode p)).isCooldownActive = true ∧
      (step s (.decode p)).loading = false := by
  intro s p hA hS hL
  have h1 : step s (.decode p) =
      { s with scanResult := some (cooldownRejectResult s.cooldownTimer) } := by
    simp [step, hS, hL, handleScanStart, hA]
  exact ⟨h1, by rw [h1], by rw [h1]; exact hA, by rw [h1]; exact hL⟩

/-- Witness for C10 at a state with an active 3-second cooldown. -/
theorem cooldown_reject_frame_witness :
    step sCooldown (.decode "QR-EMP-002") =
      { sCooldown with scanResult := some (cooldownRejectResult sCooldown.cooldownTimer) } ∧
    (step sCooldown (.decode "QR-EMP-002")).cooldownTimer = sCooldown.cooldownTimer ∧
    (step sCooldown (.decode "QR-EMP-002")).isCooldownActive = true ∧
    (step sCooldown (.decode "QR-EMP-002")).loading = false :=
  cooldown_reject_frame sCooldown "QR-EMP-002" rfl rfl rfl

/-- C2 (code bug): the second decode of `staleDoubleTrace` arrives
while the call issued by the first is still in flight (`loading` is
true after the trace's first two events), yet the callback's captured
`disabled` is still false and the captured `handleQRScan` closure never
re-checks `loading`, so a second concurrent `processScan` is issued and
two calls are pending at once — against the claimed property that a
decode arriving while a submission is in flight is ignored and at most
one submission is ever in flight. -/
theorem double_submission_stale_gate :
    ((staleDoubleTrace.take 2).foldl qstep qinit).dash.loading = true ∧
    (staleDoubleTrace.foldl qstep qinit).dash.inFlight =
      ["QR-EMP-002", "QR-EMP-001"] ∧
    (staleDoubleTrace.foldl qstep qinit).dash.inFlight.length = 2 :=
  ⟨rfl, rfl, rfl⟩

/-- C5: in the `qr-scanner` implementation, `toggleCamera` issued while
capturing leaves the session capturing with a live instance on the
opposite facing direction; issued while idle it only flips the facing
direction. -/
theorem toggle_camera_refacing :
    ∀ st : PScannerState,
      (st.isScanning = true →
        (ptoggleCamera true true st).isScanning = true ∧
        (ptoggleCamera true true st).facingMode = flipFacing st.facingMode ∧
        (ptoggleCamera true true st).scanner = some (flipFacing st.facingMode)) ∧
      (st.isScanning = false → st.scanner = none →
        ptoggleCamera true true st = { st with facingMode := flipFacing st.facingMode }) := by
  intro st
  constructor
  · intro h
    cases hsc : st.scanner <;>
      simp [ptoggleCamera, psetCamera, pstartScanning, hsc, h]
  · intro h hsc
    simp [ptoggleCamera, psetCamera, pstartScanning, hsc, h]

/-- Witness for C5 at a capturing back-camera state and an idle state. -/
theorem toggle_camera_refacing_witness :
    ((ptoggleCamera true true pCapturing).isScanning = true ∧
     (ptoggleCamera true true pCapturing).facingMode = flipFacing pCapturing.facingMode ∧
     (ptoggleCamera true true pCapturing).scanner = some (flipFacing pCapturing.facingMode)) ∧
    ptoggleCamera true true pIdle = { pIdle with facingMode := flipFacing pIdle.facingMode } :=
  ⟨(toggle_camera_refacing pCapturing).1 rfl,
   (toggle_camera_refacing pIdle).2 rfl rfl⟩

/-- C6: a transport fault on the in-flight call surfaces the
server-error outcome and clears the loading flag, after which a decode
event is accepted again and issues a fresh submission. -/
theorem network_fault_recovery :
    ∀ (s : SysState) (p pay : String),
      s.inFlight = [p] → s.isScanning = true → s.isCooldownActive = false →
      (step s .respondError).scanResult = some serverErrorResult ∧
      (step s .respondError).loading = false ∧
      (step s .respondError).inFlight = [] ∧
      (step (step s .respondError) (.decode pay)).loading = true ∧
      (step (step s .respondError) (.decode pay)).inFlight = [pay] := by
  intro s p pay hIn hS hA
  have h1 : step s .respondError = { applyScanError s with inFlight := [] } := by
    simp [step, hIn]
  rw [h1]
  refine ⟨rfl, rfl, rfl, ?_, ?_⟩ <;>
    simp [step, applyScanError, handleScanStart, hS, hA]

/-- Witness for C6 at a state with one call in flight. -/
theorem network_fault_recovery_witness :
    (step sFlight .respondError).scanResult = some serverErrorResult ∧
    (step sFlight .respondError).loading = false ∧
    (step sFlight .respondError).inFlight = [] ∧
    (step (step sFlight .respondError) (.decode "QR-EMP-002")).loading = true ∧
    (step (step sFlight .respondError) (.decode "QR-EMP-002")).inFlight = ["QR-EMP-002"] :=
  network_fault_recovery sFlight "QR-EMP-001" "QR-EMP-002" rfl rfl rfl

/-- C9: a backend response whose `cooldown_seconds` is absent or zero
leaves the governor unarmed — the active flag stays false and the
counter is unchanged — and the very next decode event issues a backend
submission immediately. -/
theorem no_cooldown_not_armed :
    ∀ (s : SysState) (p pay : String) (r : BackendResponse),
      s.inFlight = [p] → s.isCooldownActive = false → s.isScanning = true →
      r.cooldown_seconds.getD 0 = 0 →
      (step s (.respond r)).isCooldownActive = false ∧
      (step s (.respond r)).cooldownTimer = s.cooldownTimer ∧
      (step (step s (.respond r)) (.decode pay)).loading = true ∧
      (step (step s (.respond r)) (.decode pay)).inFlight = [pay] := by
  intro s p pay r hIn hA hS hcs
  have h1 : step s (.respond r) = { applyScanResponse r s with inFlight := [] } := by
    simp [step, hIn]
  have h2 : (applyScanResponse r s).isCooldownActive = s.isCooldownActive ∧
      (applyScanResponse r s).cooldownTimer = s.cooldownTimer ∧
      (applyScanResponse r s).isScanning = s.isScanning ∧
      (applyScanResponse r s).loading = false := by
    unfold applyScanResponse
    rw [hcs]
    cases r.success <;> simp
  rw [h1]
  refine ⟨h2.1.trans hA, h2.2.1, ?_, ?_⟩ <;>
    simp [step, handleScanStart, h2.1, h2.2.1, h2.2.2.1, h2.2.2.2, hS, hA]

/-- Witness for C9 on a failing response with no `cooldown_seconds`. -/
theorem no_cooldown_not_armed_witness :
    (step sFlight (.respond rUnauthorizedFail)).isCooldownActive = false ∧
    (step sFlight (.respond rUnauthorizedFail)).cooldownTimer = sFlight.cooldownTimer ∧
    (step (step sFlight (.respond rUnauthorizedFail)) (.decode "QR-EMP-002")).loading = true ∧
    (step (step sFlight (.respond rUnauthorizedFail)) (.decode "QR-EMP-002")).inFlight = ["QR-EMP-002"] :=
  no_cooldown_not_armed sFlight "QR-EMP-001" "QR-EMP-002" rUnauthorizedFail rfl rfl rfl rfl

end ScanEngine
